import Mathlib

/-!
Verification of the IFO (Identified Flying Object) CLI core against its
specification.  The repository is Python; we give a shallow embedding of
its core functions:

* `parse_coordinates` and `create_bounding_box` from `ifo.py`,
* `OpenSkyAPI._parse_state_vector` and the bounding-box validation of
  `OpenSkyAPI.get_aircraft_in_area` from `api.py`,
* `Geocoder.geocode` from `geocoding.py`.

Modelling conventions:

* Python floats are modelled as exact rationals `ℚ` (the spec states its
  numeric properties over real arithmetic, e.g. exact `2r` box widths);
  the special values `inf`/`nan` and digit-group underscores accepted by
  the Python `float` constructor are outside the rational model.
* Untyped Python values appearing in raw state vectors are modelled by
  the sum type `PyVal` (null, string, number, boolean), with Python
  truthiness reproduced by `pyTruthy`.
* Network calls are modelled by passing the fetch step as a function
  argument; a result that holds for every such argument is established
  before (and independently of) any network request.
* Python exceptions are modelled with `Except`; distinct raise sites
  carry their distinct messages (apostrophes of the original messages
  are dropped).
-/

/-- Decidable equality of `Except` results, so concrete runs of the
embedded functions can be checked by `decide`. -/
instance {ε α : Type} [DecidableEq ε] [DecidableEq α] : DecidableEq (Except ε α) := fun x y =>
  match x, y with
  | Except.ok a, Except.ok b =>
    if h : a = b then Decidable.isTrue (by rw [h])
    else Decidable.isFalse (by intro hc; injection hc; contradiction)
  | Except.error a, Except.error b =>
    if h : a = b then Decidable.isTrue (by rw [h])
    else Decidable.isFalse (by intro hc; injection hc; contradiction)
  | Except.ok _, Except.error _ => Decidable.isFalse (by intro hc; injection hc)
  | Except.error _, Except.ok _ => Decidable.isFalse (by intro hc; injection hc)

namespace Ifo

/-- An untyped value of a raw state vector (a decoded JSON entry):
Python `None`, a string, a number, or a boolean. -/
inductive PyVal where
  | null
  | str (s : String)
  | num (q : ℚ)
  | bool (b : Bool)
deriving DecidableEq, Repr

/-- Python truthiness for the values of `PyVal`: `None` is falsy, a
string is truthy iff non-empty, a number is truthy iff non-zero, a
boolean is itself. -/
def pyTruthy : PyVal → Bool
  | .null => false
  | .str s => !(s == "")
  | .num q => !(q == 0)
  | .bool b => b

/-- The whitespace characters stripped by Python `str.strip()`
(restricted to the ASCII ones). -/
def pyIsSpace (c : Char) : Bool :=
  c == ' ' || c == '\t' || c == '\n' || c == '\r' || c == '\x0b' || c == '\x0c'

/-- Strip leading and trailing whitespace from a character list. -/
def trimChars (l : List Char) : List Char :=
  ((l.dropWhile pyIsSpace).reverse.dropWhile pyIsSpace).reverse

/-- Python `str.strip()`. -/
def pyStrip (s : String) : String :=
  String.mk (trimChars s.toList)

/-- Value of a list of decimal digit characters. -/
def digitsToNat (l : List Char) : ℕ :=
  l.foldl (fun a c => 10 * a + (c.toNat - 48)) 0

/-- A non-empty all-digit character list. -/
def allDigits (l : List Char) : Bool :=
  !l.isEmpty && l.all Char.isDigit

/-- Split a character list at the first character satisfying `p`,
returning the parts before and after it, or nothing if no character
satisfies `p`. -/
def splitOnFirst (p : Char → Bool) : List Char → Option (List Char × List Char)
  | [] => Option.none
  | c :: rest =>
    if p c then some ([], rest)
    else (splitOnFirst p rest).map (fun q => (c :: q.1, q.2))

/-- Consume an optional leading sign, returning the sign and the rest. -/
def parseSign : List Char → ℤ × List Char
  | '+' :: rest => (1, rest)
  | '-' :: rest => ((-1 : ℤ), rest)
  | l => (1, l)

/-- Parse an unsigned decimal mantissa: digits with an optional decimal
point somewhere, at least one digit in total.  Returns the digit string
read as a natural number together with the number of fractional digits,
so the mantissa value is the first component divided by ten to the
second. -/
def parseMantissaParts (l : List Char) : Option (ℕ × ℕ) :=
  match splitOnFirst (fun c => c == '.') l with
  | Option.none => if allDigits l then some (digitsToNat l, 0) else Option.none
  | some (ip, fp) =>
    if ip.isEmpty && fp.isEmpty then Option.none
    else if ip.all Char.isDigit && fp.all Char.isDigit then
      some (digitsToNat (ip ++ fp), fp.length)
    else Option.none

/-- Parse a signed decimal exponent. -/
def parseExponent (l : List Char) : Option ℤ :=
  let sr := parseSign l
  if allDigits sr.2 then some (sr.1 * (digitsToNat sr.2 : ℤ)) else Option.none

/-- Core of the Python `float` constructor on a stripped character
list: optional sign, decimal mantissa, optional exponent part
introduced by `e` or `E`.  Returns the signed mantissa numerator, the
count of fractional digits and the exponent. -/
def pyFloatParts (l : List Char) : Option (ℤ × ℕ × ℤ) :=
  let sr := parseSign l
  match splitOnFirst (fun c => c == 'e' || c == 'E') sr.2 with
  | Option.none => (parseMantissaParts sr.2).map (fun m => (sr.1 * (m.1 : ℤ), m.2, (0 : ℤ)))
  | some (m, e) =>
    match parseMantissaParts m, parseExponent e with
    | some mv, some ev => some (sr.1 * (mv.1 : ℤ), mv.2, ev)
    | _, _ => Option.none

/-- The rational value of a parsed float: signed mantissa numerator
over ten to the fractional length, times ten to the exponent. -/
def ratOfParts (p : ℤ × ℕ × ℤ) : ℚ :=
  (p.1 : ℚ) / (10 : ℚ) ^ p.2.1 * (10 : ℚ) ^ p.2.2

/-- The Python `float` constructor on a string: strips whitespace, then
parses a signed decimal number, failing with the ValueError message
otherwise. -/
def pyFloat (s : String) : Except String ℚ :=
  match pyFloatParts (trimChars s.toList) with
  | some p => Except.ok (ratOfParts p)
  | Option.none => Except.error ("could not convert string to float: " ++ s)

/-- Python `str.split(sep=",")`: split at every comma, keeping empty
parts, never returning an empty list of parts. -/
def splitComma : List Char → List (List Char)
  | [] => [[]]
  | c :: rest =>
    if c = ',' then [] :: splitComma rest
    else
      match splitComma rest with
      | [] => [[c]]
      | p :: ps => (c :: p) :: ps

/-- The distinct raise sites of `parse_coordinates` in `ifo.py`: wrong
comma-separated token count, a token the `float` constructor rejects,
latitude out of range, longitude out of range.  In Python all four are
`ValueError`s carrying the distinct messages rendered by
`coordErrMsg`. -/
inductive CoordErr where
  | formatErr
  | floatErr (tok : String)
  | rangeLat (v : ℚ)
  | rangeLon (v : ℚ)
deriving DecidableEq, Repr

/-- The message of each raise site of `parse_coordinates`, as written
in `ifo.py` (and, for `floatErr`, by the Python `float` constructor). -/
def coordErrMsg : CoordErr → String
  | .formatErr => "Coordinates must be in format latitude,longitude"
  | .floatErr tok => "could not convert string to float: " ++ tok
  | .rangeLat v => "Latitude " ++ toString v ++ " out of range (-90 to 90)"
  | .rangeLon v => "Longitude " ++ toString v ++ " out of range (-180 to 180)"

/-- The Python `float` constructor with its failure recorded as a
`CoordErr`, as used inside `parse_coordinates`. -/
def pyFloatE (s : String) : Except CoordErr ℚ :=
  match pyFloatParts (trimChars s.toList) with
  | some p => Except.ok (ratOfParts p)
  | Option.none => Except.error (.floatErr s)

/-- `parse_coordinates` from `ifo.py`: split the input on commas, fail
unless there are exactly two parts, strip and float-parse each part,
then range-check latitude and longitude in that order. -/
def parse_coordinates (coord_str : String) : Except CoordErr (ℚ × ℚ) :=
  let parts := splitComma coord_str.toList
  if parts.length ≠ 2 then Except.error .formatErr
  else do
    let lat ← pyFloatE (pyStrip (String.mk (parts.getD 0 [])))
    let lon ← pyFloatE (pyStrip (String.mk (parts.getD 1 [])))
    if ¬(-90 ≤ lat ∧ lat ≤ 90) then Except.error (.rangeLat lat)
    else if ¬(-180 ≤ lon ∧ lon ≤ 180) then Except.error (.rangeLon lon)
    else Except.ok (lat, lon)

/-- The outer `except` clause of `parse_coordinates`, which re-raises
any of the four errors wrapped in the invalid-coordinates message. -/
def parse_coordinates_wrapped (coord_str : String) : Except String (ℚ × ℚ) :=
  (parse_coordinates coord_str).mapError
    (fun e => "Invalid coordinates " ++ coord_str ++ ": " ++ coordErrMsg e)

/-- The bounding box returned by `create_bounding_box` in `ifo.py`, a
quadruple in the source order (lat_min, lon_min, lat_max, lon_max). -/
structure BoundingBox where
  lat_min : ℚ
  lon_min : ℚ
  lat_max : ℚ
  lon_max : ℚ
deriving DecidableEq, Repr

/-- `create_bounding_box` from `ifo.py`: expand the center by the
radius in each direction and clamp each bound independently to its
valid range. -/
def create_bounding_box (lat lon : ℚ) (radius_deg : ℚ) : BoundingBox :=
  { lat_min := max (-90) (lat - radius_deg)
  , lat_max := min 90 (lat + radius_deg)
  , lon_min := max (-180) (lon - radius_deg)
  , lon_max := min 180 (lon + radius_deg) }

/-- The dictionary returned by `OpenSkyAPI._parse_state_vector`: one
normalized aircraft state.  Every field holds the untyped value taken
from the raw record (only the callsign is transformed). -/
structure AircraftState where
  icao24 : PyVal
  callsign : PyVal
  origin_country : PyVal
  longitude : PyVal
  latitude : PyVal
  baro_altitude : PyVal
  on_ground : PyVal
  velocity : PyVal
  true_track : PyVal
  vertical_rate : PyVal
  geo_altitude : PyVal
  squawk : PyVal
deriving DecidableEq, Repr

/-- The callsign expression of `_parse_state_vector`:
`state[1].strip() if state[1] else None`.  A falsy value yields `None`;
a truthy string is stripped; a truthy non-string makes the attribute
lookup `.strip` raise `AttributeError`. -/
def stripIfTruthy (v : PyVal) : Except String PyVal :=
  if pyTruthy v then
    match v with
    | .str s => Except.ok (.str (pyStrip s))
    | _ => Except.error "AttributeError: object has no attribute strip"
  else Except.ok .null

/-- `OpenSkyAPI._parse_state_vector` from `api.py`: reject records
shorter than 17 positions naming the expected and actual lengths, then
extract the twelve surfaced fields by fixed index, transforming only
the callsign. -/
def parse_state_vector (state : List PyVal) : Except String AircraftState :=
  if state.length < 17 then
    Except.error ("Invalid state vector: expected 17 elements, got " ++ toString state.length)
  else do
    let cs ← stripIfTruthy (state.getD 1 .null)
    Except.ok
      { icao24 := state.getD 0 .null
      , callsign := cs
      , origin_country := state.getD 2 .null
      , longitude := state.getD 5 .null
      , latitude := state.getD 6 .null
      , baro_altitude := state.getD 7 .null
      , on_ground := state.getD 8 .null
      , velocity := state.getD 9 .null
      , true_track := state.getD 10 .null
      , vertical_rate := state.getD 11 .null
      , geo_altitude := state.getD 13 .null
      , squawk := state.getD 14 .null }

/-- `OpenSkyAPI.get_aircraft_in_area` from `api.py`: validate the four
bounds (range checks first, then strict ordering), and only then issue
the network request, modelled by the `fetch` argument returning the
raw state vectors of the response, each of which is normalized. -/
def get_aircraft_in_area (fetch : ℚ → ℚ → ℚ → ℚ → List (List PyVal))
    (lat_min lon_min lat_max lon_max : ℚ) : Except String (List AircraftState) :=
  if ¬(-90 ≤ lat_min ∧ lat_min ≤ 90 ∧ -90 ≤ lat_max ∧ lat_max ≤ 90) then
    Except.error "Latitude must be between -90 and 90 degrees"
  else if ¬(-180 ≤ lon_min ∧ lon_min ≤ 180 ∧ -180 ≤ lon_max ∧ lon_max ≤ 180) then
    Except.error "Longitude must be between -180 and 180 degrees"
  else if lat_min ≥ lat_max then
    Except.error "lat_min must be less than lat_max"
  else if lon_min ≥ lon_max then
    Except.error "lon_min must be less than lon_max"
  else
    (fetch lat_min lon_min lat_max lon_max).mapM parse_state_vector

/-- One entry of the JSON array returned by the Nominatim search
endpoint, keeping only the three keys `Geocoder.geocode` reads; a
`none` component models a missing key. -/
structure NomItem where
  lat : Option String
  lon : Option String
  display_name : Option String
deriving DecidableEq, Repr

/-- The dictionary returned by `Geocoder.geocode` on success. -/
structure GeoResult where
  lat : ℚ
  lon : ℚ
  display_name : String
deriving DecidableEq, Repr

/-- `Geocoder.MAX_PLACE_LENGTH` from `geocoding.py`. -/
def MAX_PLACE_LENGTH : ℕ := 200

/-- `Geocoder.geocode` from `geocoding.py`: reject empty or
whitespace-only place names, then over-long names, and only then issue
the network request, modelled by the `fetch` argument returning the
decoded JSON array.  An empty array is the not-found outcome; a first
entry missing one of the expected keys is the malformed-response
error; otherwise the two coordinates are float-parsed. -/
def geocode (fetch : String → List NomItem) (place : String) : Except String (Option GeoResult) :=
  if place = "" ∨ pyStrip place = "" then Except.error "Place name cannot be empty"
  else if MAX_PLACE_LENGTH < place.length then
    Except.error "Place name too long (max 200 characters)"
  else
    match fetch (pyStrip place) with
    | [] => Except.ok Option.none
    | item :: _ =>
      match item.lat, item.lon, item.display_name with
      | some la, some lo, some dn =>
        match pyFloat la, pyFloat lo with
        | Except.ok a, Except.ok b =>
          Except.ok (some { lat := a, lon := b, display_name := dn })
        | Except.error e, _ => Except.error e
        | _, Except.error e => Except.error e
      | _, _, _ => Except.error "Unexpected response format from geocoding service"

/-- A 17-position raw record whose callsign (position 1) is a
non-empty, whitespace-only string. -/
def wsCallsignRec : List PyVal :=
  [PyVal.str "ab1644", PyVal.str "   ", PyVal.str "Germany", PyVal.null, PyVal.null,
   PyVal.null, PyVal.null, PyVal.null, PyVal.bool false, PyVal.null, PyVal.null,
   PyVal.null, PyVal.null, PyVal.null, PyVal.null, PyVal.bool false, PyVal.null]

/-- A 17-position raw record whose callsign (position 1) is a truthy
non-string value. -/
def boolCallsignRec : List PyVal :=
  [PyVal.str "ab1644", PyVal.bool true, PyVal.str "Germany", PyVal.null, PyVal.null,
   PyVal.null, PyVal.null, PyVal.null, PyVal.bool false, PyVal.null, PyVal.null,
   PyVal.null, PyVal.null, PyVal.null, PyVal.null, PyVal.bool false, PyVal.null]

/-- A 17-position raw record whose on_ground field (position 8) is
null. -/
def nullGroundRec : List PyVal :=
  [PyVal.str "ab1644", PyVal.str "UAL123", PyVal.str "Germany", PyVal.null, PyVal.null,
   PyVal.null, PyVal.null, PyVal.null, PyVal.null, PyVal.null, PyVal.null,
   PyVal.null, PyVal.null, PyVal.null, PyVal.null, PyVal.bool false, PyVal.null]

/-- A 17-position raw record whose callsign has trailing whitespace and
whose on_ground field is the boolean true. -/
def trailingCallsignRec : List PyVal :=
  [PyVal.str "ab1644", PyVal.str "UAL123  ", PyVal.str "Germany", PyVal.null, PyVal.null,
   PyVal.null, PyVal.null, PyVal.null, PyVal.bool true, PyVal.null, PyVal.null,
   PyVal.null, PyVal.null, PyVal.null, PyVal.null, PyVal.bool false, PyVal.null]

/-- The normalized state of `trailingCallsignRec`. -/
def trailingCallsignState : AircraftState :=
  { icao24 := PyVal.str "ab1644", callsign := PyVal.str "UAL123",
    origin_country := PyVal.str "Germany",
    longitude := PyVal.null, latitude := PyVal.null, baro_altitude := PyVal.null,
    on_ground := PyVal.bool true, velocity := PyVal.null, true_track := PyVal.null,
    vertical_rate := PyVal.null, geo_altitude := PyVal.null, squawk := PyVal.null }

/-- A place name of 201 characters, above `MAX_PLACE_LENGTH`. -/
def longPlace : String := String.mk (List.replicate 201 'a')

/-- A Nominatim entry missing the display_name key. -/
def noNameItem : NomItem := { lat := some "1", lon := some "2", display_name := Option.none }

/-! ## Theorems -/

/-- C2: for every radius r > 0 and every center whose latitude lies in
the open interval (-90+r, 90-r) and whose longitude lies in
(-180+r, 180-r), `create_bounding_box` returns a box of exact width 2r
in each dimension. -/
theorem create_bounding_box_exact_width (lat lon r : ℚ)
    (hr : 0 < r) (hlat1 : -90 + r < lat) (hlat2 : lat < 90 - r)
    (hlon1 : -180 + r < lon) (hlon2 : lon < 180 - r) :
    (create_bounding_box lat lon r).lat_max - (create_bounding_box lat lon r).lat_min = 2 * r ∧
    (create_bounding_box lat lon r).lon_max - (create_bounding_box lat lon r).lon_min = 2 * r := by
  simp only [create_bounding_box]
  rw [max_eq_right (by linarith : (-90 : ℚ) ≤ lat - r),
    min_eq_right (by linarith : lat + r ≤ 90),
    max_eq_right (by linarith : (-180 : ℚ) ≤ lon - r),
    min_eq_right (by linarith : lon + r ≤ 180)]
  constructor <;> ring

theorem create_bounding_box_exact_width_witness :
    (create_bounding_box 0 0 1).lat_max - (create_bounding_box 0 0 1).lat_min = 2 * 1 ∧
    (create_bounding_box 0 0 1).lon_max - (create_bounding_box 0 0 1).lon_min = 2 * 1 :=
  create_bounding_box_exact_width 0 0 1 (by norm_num) (by norm_num) (by norm_num)
    (by norm_num) (by norm_num)

/-- C5: for every center with latitude in [-90, 90] and longitude in
[-180, 180] and every radius r > 0, the box returned by
`create_bounding_box` has strictly ordered bounds, all four of which
lie in their valid ranges. -/
theorem create_bounding_box_invariants (lat lon r : ℚ)
    (hlat1 : -90 ≤ lat) (hlat2 : lat ≤ 90) (hlon1 : -180 ≤ lon) (hlon2 : lon ≤ 180)
    (hr : 0 < r) :
    (create_bounding_box lat lon r).lat_min < (create_bounding_box lat lon r).lat_max ∧
    (create_bounding_box lat lon r).lon_min < (create_bounding_box lat lon r).lon_max ∧
    -90 ≤ (create_bounding_box lat lon r).lat_min ∧
    (create_bounding_box lat lon r).lat_min ≤ 90 ∧
    -90 ≤ (create_bounding_box lat lon r).lat_max ∧
    (create_bounding_box lat lon r).lat_max ≤ 90 ∧
    -180 ≤ (create_bounding_box lat lon r).lon_min ∧
    (create_bounding_box lat lon r).lon_min ≤ 180 ∧
    -180 ≤ (create_bounding_box lat lon r).lon_max ∧
    (create_bounding_box lat lon r).lon_max ≤ 180 := by
  simp only [create_bounding_box]
  refine ⟨?_, ?_, le_max_left _ _, ?_, ?_, min_le_left _ _,
    le_max_left _ _, ?_, ?_, min_le_left _ _⟩
  · exact max_lt_iff.mpr ⟨lt_min_iff.mpr ⟨by norm_num, by linarith⟩,
      lt_min_iff.mpr ⟨by linarith, by linarith⟩⟩
  · exact max_lt_iff.mpr ⟨lt_min_iff.mpr ⟨by norm_num, by linarith⟩,
      lt_min_iff.mpr ⟨by linarith, by linarith⟩⟩
  · exact max_le_iff.mpr ⟨by norm_num, by linarith⟩
  · exact le_min_iff.mpr ⟨by norm_num, by linarith⟩
  · exact max_le_iff.mpr ⟨by norm_num, by linarith⟩
  · exact le_min_iff.mpr ⟨by norm_num, by linarith⟩

theorem create_bounding_box_invariants_witness :
    (create_bounding_box 0 0 1).lat_min < (create_bounding_box 0 0 1).lat_max ∧
    (create_bounding_box 0 0 1).lon_min < (create_bounding_box 0 0 1).lon_max ∧
    -90 ≤ (create_bounding_box 0 0 1).lat_min ∧
    (create_bounding_box 0 0 1).lat_min ≤ 90 ∧
    -90 ≤ (create_bounding_box 0 0 1).lat_max ∧
    (create_bounding_box 0 0 1).lat_max ≤ 90 ∧
    -180 ≤ (create_bounding_box 0 0 1).lon_min ∧
    (create_bounding_box 0 0 1).lon_min ≤ 180 ∧
    -180 ≤ (create_bounding_box 0 0 1).lon_max ∧
    (create_bounding_box 0 0 1).lon_max ≤ 180 :=
  create_bounding_box_invariants 0 0 1 (by norm_num) (by norm_num) (by norm_num)
    (by norm_num) (by norm_num)

/-- An inverted or degenerate box (upper latitude bound at or below the
lower one) always fails the validation of `get_aircraft_in_area`,
whatever the fetch step would return. -/
lemma get_aircraft_in_area_error_of_ge (fetch : ℚ → ℚ → ℚ → ℚ → List (List PyVal))
    (a b c d : ℚ) (h : c ≤ a) :
    ∃ msg, get_aircraft_in_area fetch a b c d = Except.error msg := by
  unfold get_aircraft_in_area
  by_cases h1 : -90 ≤ a ∧ a ≤ 90 ∧ -90 ≤ c ∧ c ≤ 90
  · rw [if_neg (not_not_intro h1)]
    by_cases h2 : -180 ≤ b ∧ b ≤ 180 ∧ -180 ≤ d ∧ d ≤ 180
    · rw [if_neg (not_not_intro h2), if_pos (h : a ≥ c)]
      exact ⟨_, rfl⟩
    · rw [if_pos h2]
      exact ⟨_, rfl⟩
  · rw [if_pos h1]
    exact ⟨_, rfl⟩

/-- C9: for every in-range center and every radius r ≤ 0, passing the
four bounds produced by `create_bounding_box` to
`get_aircraft_in_area` yields a ValueError, whatever the network fetch
step would return — so the error is raised before, and independently
of, any network request. -/
theorem degenerate_radius_rejected (lat lon r : ℚ)
    (fetch : ℚ → ℚ → ℚ → ℚ → List (List PyVal))
    (hlat1 : -90 ≤ lat) (hlat2 : lat ≤ 90) (hlon1 : -180 ≤ lon) (hlon2 : lon ≤ 180)
    (hr : r ≤ 0) :
    ∃ msg, get_aircraft_in_area fetch
      (create_bounding_box lat lon r).lat_min (create_bounding_box lat lon r).lon_min
      (create_bounding_box lat lon r).lat_max (create_bounding_box lat lon r).lon_max
      = Except.error msg := by
  apply get_aircraft_in_area_error_of_ge
  simp only [create_bounding_box]
  calc min 90 (lat + r) ≤ lat + r := min_le_right _ _
    _ ≤ lat - r := by linarith
    _ ≤ max (-90) (lat - r) := le_max_right _ _

theorem degenerate_radius_rejected_witness :
    ∃ msg, get_aircraft_in_area (fun _ _ _ _ => [])
      (create_bounding_box 0 0 0).lat_min (create_bounding_box 0 0 0).lon_min
      (create_bounding_box 0 0 0).lat_max (create_bounding_box 0 0 0).lon_max
      = Except.error msg :=
  degenerate_radius_rejected 0 0 0 (fun _ _ _ _ => []) (by norm_num) (by norm_num)
    (by norm_num) (by norm_num) (by norm_num)

/-- C10: `parse_state_vector` is deterministic — it is a pure function
of the raw record, so equal raw records always normalize to identical
results, with no dependence on hidden state. -/
theorem parse_state_vector_deterministic (s t : List PyVal) (h : s = t) :
    parse_state_vector s = parse_state_vector t := by rw [h]

theorem parse_state_vector_deterministic_witness :
    parse_state_vector [PyVal.str "a", PyVal.str "b", PyVal.str "c"] =
      parse_state_vector [PyVal.str "a", PyVal.str "b", PyVal.str "c"] :=
  parse_state_vector_deterministic _ _ rfl

/-- Decomposition of a successful run of `parse_state_vector`: the
record was long enough, the callsign is the result of the callsign
expression, and every other field is the raw value at its fixed
index. -/
lemma parse_state_vector_ok_shape (state : List PyVal) (st : AircraftState)
    (h : parse_state_vector state = Except.ok st) :
    17 ≤ state.length ∧
    stripIfTruthy (state.getD 1 PyVal.null) = Except.ok st.callsign ∧
    st.icao24 = state.getD 0 PyVal.null ∧
    st.origin_country = state.getD 2 PyVal.null ∧
    st.longitude = state.getD 5 PyVal.null ∧
    st.latitude = state.getD 6 PyVal.null ∧
    st.baro_altitude = state.getD 7 PyVal.null ∧
    st.on_ground = state.getD 8 PyVal.null ∧
    st.velocity = state.getD 9 PyVal.null ∧
    st.true_track = state.getD 10 PyVal.null ∧
    st.vertical_rate = state.getD 11 PyVal.null ∧
    st.geo_altitude = state.getD 13 PyVal.null ∧
    st.squawk = state.getD 14 PyVal.null := by
  unfold parse_state_vector at h
  split at h
  · exact absurd h (by simp)
  · rename_i hge
    cases hstrip : stripIfTruthy (state.getD 1 PyVal.null) with
    | error e =>
      rw [hstrip] at h
      simp [Bind.bind, Except.bind] at h
    | ok cs =>
      rw [hstrip] at h
      simp only [Bind.bind, Except.bind] at h
      injection h with h
      subst h
      exact ⟨by omega, rfl, rfl, rfl, rfl, rfl, rfl, rfl, rfl, rfl, rfl, rfl, rfl⟩

/-- The callsign expression maps null to null. -/
lemma stripIfTruthy_null : stripIfTruthy PyVal.null = Except.ok PyVal.null := rfl

/-- The callsign expression maps the empty string to null. -/
lemma stripIfTruthy_empty : stripIfTruthy (PyVal.str "") = Except.ok PyVal.null := rfl

/-- The callsign expression strips a non-empty string. -/
lemma stripIfTruthy_str (s : String) (hs : s ≠ "") :
    stripIfTruthy (PyVal.str s) = Except.ok (PyVal.str (pyStrip s)) := by
  unfold stripIfTruthy
  have ht : pyTruthy (PyVal.str s) = true := by simp [pyTruthy, hs]
  rw [ht]
  simp

/-- C1 (corrected): the claim fails for a non-empty, whitespace-only
callsign, which normalizes to the empty string, not to null —
`wsCallsignRec` has callsign the string of three blanks, which is
empty after trimming, yet the normalized callsign is the empty string
rather than absent. -/
theorem callsign_whitespace_counterexample :
    pyStrip "   " = "" ∧
    wsCallsignRec.getD 1 PyVal.null = PyVal.str "   " ∧
    (parse_state_vector wsCallsignRec).map AircraftState.callsign = Except.ok (PyVal.str "") ∧
    PyVal.str "" ≠ PyVal.null := by decide

/-- C1 (amended): for every raw record on which normalize succeeds, a
null or empty-string callsign yields an absent callsign, and a
non-empty string callsign yields exactly the trimmed value — which is
the empty string, not absent, when the string is whitespace-only. -/
theorem parse_state_vector_callsign (state : List PyVal) (st : AircraftState) (s : String)
    (h : parse_state_vector state = Except.ok st) :
    (state.getD 1 PyVal.null = PyVal.null ∨ state.getD 1 PyVal.null = PyVal.str "" →
      st.callsign = PyVal.null) ∧
    (state.getD 1 PyVal.null = PyVal.str s → s ≠ "" → st.callsign = PyVal.str (pyStrip s)) := by
  obtain ⟨-, hstrip, -⟩ := parse_state_vector_ok_shape state st h
  constructor
  · rintro (hv | hv) <;> rw [hv] at hstrip
    · rw [stripIfTruthy_null] at hstrip
      injection hstrip with hh
      exact hh.symm
    · rw [stripIfTruthy_empty] at hstrip
      injection hstrip with hh
      exact hh.symm
  · intro hv hs
    rw [hv, stripIfTruthy_str s hs] at hstrip
    injection hstrip with hh
    exact hh.symm

theorem parse_state_vector_callsign_witness :
    trailingCallsignState.callsign = PyVal.str (pyStrip "UAL123  ") :=
  (parse_state_vector_callsign trailingCallsignRec trailingCallsignState "UAL123  "
    (by decide)).2 (by decide) (by decide)

/-- C8 (corrected): the claim fails for a record whose position 8 is
null — `nullGroundRec` normalizes successfully with an absent
on_ground, which is not a boolean. -/
theorem on_ground_null_counterexample :
    nullGroundRec.length = 17 ∧
    (parse_state_vector nullGroundRec).map AircraftState.on_ground = Except.ok PyVal.null ∧
    PyVal.null ≠ PyVal.bool true ∧ PyVal.null ≠ PyVal.bool false := by decide

/-- C8 (amended): for every raw record on which normalize succeeds,
on_ground is position 8 of the record passed through verbatim, so it
is a plain boolean exactly when position 8 is, and an absent
position 8 yields an absent on_ground. -/
theorem parse_state_vector_on_ground (state : List PyVal) (st : AircraftState)
    (h : parse_state_vector state = Except.ok st) :
    st.on_ground = state.getD 8 PyVal.null := by
  obtain ⟨-, -, -, -, -, -, -, hg, -⟩ := parse_state_vector_ok_shape state st h
  exact hg

theorem parse_state_vector_on_ground_witness :
    trailingCallsignState.on_ground = trailingCallsignRec.getD 8 PyVal.null :=
  parse_state_vector_on_ground trailingCallsignRec trailingCallsignState (by decide)

/-- C3 (corrected): normalization does not succeed on every record
with at least 17 positions — `boolCallsignRec` has 17 positions but a
truthy non-string callsign, on which the attribute access
`state[1].strip()` fails. -/
theorem nonstring_callsign_counterexample :
    boolCallsignRec.length = 17 ∧
    parse_state_vector boolCallsignRec =
      Except.error "AttributeError: object has no attribute strip" := by decide

/-- C3 (amended): a record with fewer than 17 positions fails with the
error naming the expected length 17 and the actual length; a record
with at least 17 positions yields the callsign expression mapped onto
the fixed-index extraction, whose every other field is the raw value
at positions 0, 2, 5, 6, 7, 8, 9, 10, 11, 13, 14 passed through
unchanged (so a null stays null, and null is distinct from zero), with
positions 3, 4, 12, 15, 16 not surfaced; the callsign expression fails
exactly when position 1 holds a truthy non-string value. -/
theorem parse_state_vector_fields (state : List PyVal) (v : PyVal) :
    (state.length < 17 →
      parse_state_vector state =
        Except.error ("Invalid state vector: expected 17 elements, got " ++
          toString state.length)) ∧
    (17 ≤ state.length →
      parse_state_vector state =
        (stripIfTruthy (state.getD 1 PyVal.null)).map (fun cs =>
          { icao24 := state.getD 0 PyVal.null, callsign := cs,
            origin_country := state.getD 2 PyVal.null,
            longitude := state.getD 5 PyVal.null, latitude := state.getD 6 PyVal.null,
            baro_altitude := state.getD 7 PyVal.null, on_ground := state.getD 8 PyVal.null,
            velocity := state.getD 9 PyVal.null, true_track := state.getD 10 PyVal.null,
            vertical_rate := state.getD 11 PyVal.null,
            geo_altitude := state.getD 13 PyVal.null,
            squawk := state.getD 14 PyVal.null })) ∧
    ((∃ e, stripIfTruthy v = Except.error e) ↔
      (pyTruthy v = true ∧ ∀ s, v ≠ PyVal.str s)) ∧
    PyVal.null ≠ PyVal.num 0 := by
  refine ⟨?_, ?_, ?_, by simp⟩
  · intro hlt
    unfold parse_state_vector
    rw [if_pos hlt]
  · intro hge
    unfold parse_state_vector
    rw [if_neg (by omega)]
    cases hstrip : stripIfTruthy (state.getD 1 PyVal.null) <;>
      simp [Bind.bind, Except.bind, Except.map]
  · rcases v with _ | s | q | b
    · simp [stripIfTruthy, pyTruthy]
    · by_cases hs : s = ""
      · subst hs
        simp [stripIfTruthy, pyTruthy]
      · rw [stripIfTruthy_str s hs]
        simp
    · by_cases hq : q = 0
      · subst hq
        simp [stripIfTruthy, pyTruthy]
      · simp [stripIfTruthy, pyTruthy, hq]
    · cases b <;> simp [stripIfTruthy, pyTruthy]

theorem parse_state_vector_fields_witness :
    parse_state_vector [PyVal.str "abc123", PyVal.str "TEST", PyVal.str "Germany"] =
      Except.error "Invalid state vector: expected 17 elements, got 3" :=
  (parse_state_vector_fields [PyVal.str "abc123", PyVal.str "TEST", PyVal.str "Germany"]
    PyVal.null).1 (by decide)

/-- C4: `parse_coordinates` returns a pair exactly when the comma
split has two parts, each part parses as a float after stripping, the
first lies in [-90, 90] and the second in [-180, 180]; the returned
pair is then exactly the two parsed numbers, and in every other case
the result is an error. -/
theorem parse_coordinates_correct (s : String) (a b : ℚ) :
    (parse_coordinates s = Except.ok (a, b) ↔
      ((splitComma s.toList).length = 2 ∧
        pyFloatE (pyStrip (String.mk ((splitComma s.toList).getD 0 []))) = Except.ok a ∧
        pyFloatE (pyStrip (String.mk ((splitComma s.toList).getD 1 []))) = Except.ok b ∧
        -90 ≤ a ∧ a ≤ 90 ∧ -180 ≤ b ∧ b ≤ 180)) ∧
    ((∀ p : ℚ × ℚ, parse_coordinates s ≠ Except.ok p) →
      ∃ e, parse_coordinates s = Except.error e) := by
  constructor
  · unfold parse_coordinates
    by_cases hlen : (splitComma s.toList).length = 2
    · rw [if_neg (not_not_intro hlen)]
      cases h0 : pyFloatE (pyStrip (String.mk ((splitComma s.toList).getD 0 []))) with
      | error e0 => simp [Bind.bind, Except.bind, hlen]
      | ok la =>
        cases h1 : pyFloatE (pyStrip (String.mk ((splitComma s.toList).getD 1 []))) with
        | error e1 => simp [Bind.bind, Except.bind, hlen]
        | ok lo =>
          simp only [Bind.bind, Except.bind]
          by_cases hr0 : -90 ≤ la ∧ la ≤ 90
          · rw [if_neg (not_not_intro hr0)]
            by_cases hr1 : -180 ≤ lo ∧ lo ≤ 180
            · rw [if_neg (not_not_intro hr1)]
              constructor
              · intro h
                injection h with h
                rw [Prod.mk.injEq] at h
                obtain ⟨h2, h3⟩ := h
                subst h2
                subst h3
                exact ⟨hlen, rfl, rfl, hr0.1, hr0.2, hr1.1, hr1.2⟩
              · rintro ⟨-, ha, hb, -⟩
                injection ha with ha
                injection hb with hb
                rw [ha, hb]
            · rw [if_pos hr1]
              constructor
              · intro h
                exact absurd h (by simp)
              · rintro ⟨-, ha, hb, -, -, hb1, hb2⟩
                injection hb with hb
                rw [hb] at hr1
                exact absurd ⟨hb1, hb2⟩ hr1
          · rw [if_pos hr0]
            constructor
            · intro h
              exact absurd h (by simp)
            · rintro ⟨-, ha, hb, ha1, ha2, -⟩
              injection ha with ha
              rw [ha] at hr0
              exact absurd ⟨ha1, ha2⟩ hr0
    · rw [if_pos hlen]
      constructor
      · intro h
        exact absurd h (by simp)
      · rintro ⟨h2, -⟩
        exact absurd h2 hlen
  · intro hall
    cases hpc : parse_coordinates s with
    | ok p => exact absurd hpc (hall p)
    | error e => exact ⟨e, rfl⟩

theorem parse_coordinates_correct_witness :
    parse_coordinates "37.7,-122.4" =
      Except.ok (ratOfParts (377, 1, 0), ratOfParts (-1224, 1, 0)) ∧
    ratOfParts (377, 1, 0) = 377 / 10 ∧ ratOfParts (-1224, 1, 0) = -1224 / 10 := by
  refine ⟨(parse_coordinates_correct "37.7,-122.4" (ratOfParts (377, 1, 0))
    (ratOfParts (-1224, 1, 0))).1.mpr ⟨by decide, ?_, ?_, ?_, ?_, ?_, ?_⟩, by
      norm_num [ratOfParts], by norm_num [ratOfParts]⟩
  · have hp : pyFloatParts (trimChars (pyStrip (String.mk
        ((splitComma "37.7,-122.4".toList).getD 0 []))).toList) =
        some ((377 : ℤ), (1 : ℕ), (0 : ℤ)) := by decide
    simp only [pyFloatE, hp]
  · have hp : pyFloatParts (trimChars (pyStrip (String.mk
        ((splitComma "37.7,-122.4".toList).getD 1 []))).toList) =
        some ((-1224 : ℤ), (1 : ℕ), (0 : ℤ)) := by decide
    simp only [pyFloatE, hp]
  · norm_num [ratOfParts]
  · norm_num [ratOfParts]
  · norm_num [ratOfParts]
  · norm_num [ratOfParts]

/-- C7: the checks of `parse_coordinates` run in the structural order
token count first, then the float parse of each field (latitude before
longitude, both before any range check), then the range check of each
field (latitude before longitude); the three failure kinds — format,
numeric parse, range — reach the caller as distinct errors. -/
theorem parse_coordinates_error_order (s : String) (p0 p1 : List Char) (la lo : ℚ)
    (e0 e1 : CoordErr) (t : String) (v w : ℚ) :
    ((splitComma s.toList).length ≠ 2 →
      parse_coordinates s = Except.error CoordErr.formatErr) ∧
    (splitComma s.toList = [p0, p1] →
      pyFloatE (pyStrip (String.mk p0)) = Except.error e0 →
      parse_coordinates s = Except.error e0) ∧
    (splitComma s.toList = [p0, p1] →
      pyFloatE (pyStrip (String.mk p0)) = Except.ok la →
      pyFloatE (pyStrip (String.mk p1)) = Except.error e1 →
      parse_coordinates s = Except.error e1) ∧
    (splitComma s.toList = [p0, p1] →
      pyFloatE (pyStrip (String.mk p0)) = Except.ok la →
      pyFloatE (pyStrip (String.mk p1)) = Except.ok lo →
      ¬(-90 ≤ la ∧ la ≤ 90) →
      parse_coordinates s = Except.error (CoordErr.rangeLat la)) ∧
    (splitComma s.toList = [p0, p1] →
      pyFloatE (pyStrip (String.mk p0)) = Except.ok la →
      pyFloatE (pyStrip (String.mk p1)) = Except.ok lo →
      (-90 ≤ la ∧ la ≤ 90) → ¬(-180 ≤ lo ∧ lo ≤ 180) →
      parse_coordinates s = Except.error (CoordErr.rangeLon lo)) ∧
    (CoordErr.formatErr ≠ CoordErr.floatErr t ∧
      CoordErr.formatErr ≠ CoordErr.rangeLat v ∧
      CoordErr.formatErr ≠ CoordErr.rangeLon w ∧
      CoordErr.floatErr t ≠ CoordErr.rangeLat v ∧
      CoordErr.floatErr t ≠ CoordErr.rangeLon w ∧
      CoordErr.rangeLat v ≠ CoordErr.rangeLon w) ∧
    coordErrMsg CoordErr.formatErr ≠ coordErrMsg (CoordErr.floatErr "abc") := by
  refine ⟨?_, ?_, ?_, ?_, ?_, by refine ⟨?_, ?_, ?_, ?_, ?_, ?_⟩ <;> simp, by decide⟩
  · intro hne
    unfold parse_coordinates
    rw [if_pos hne]
  · intro hsplit h0
    unfold parse_coordinates
    rw [hsplit, if_neg (by simp)]
    simp only [List.getD_cons_zero, List.getD_cons_succ]
    simp [Bind.bind, Except.bind, h0]
  · intro hsplit h0 h1
    unfold parse_coordinates
    rw [hsplit, if_neg (by simp)]
    simp only [List.getD_cons_zero, List.getD_cons_succ]
    simp [Bind.bind, Except.bind, h0, h1]
  · intro hsplit h0 h1 hr0
    unfold parse_coordinates
    rw [hsplit, if_neg (by simp)]
    simp only [List.getD_cons_zero, List.getD_cons_succ]
    simp only [Bind.bind, Except.bind, h0, h1]
    rw [if_pos hr0]
  · intro hsplit h0 h1 hr0 hr1
    unfold parse_coordinates
    rw [hsplit, if_neg (by simp)]
    simp only [List.getD_cons_zero, List.getD_cons_succ]
    simp only [Bind.bind, Except.bind, h0, h1]
    rw [if_neg (not_not_intro hr0), if_pos hr1]

theorem parse_coordinates_error_order_witness :
    parse_coordinates "91,abc" = Except.error (CoordErr.floatErr "abc") := by
  refine (parse_coordinates_error_order "91,abc" "91".toList "abc".toList
    (ratOfParts (91, 0, 0)) 0 CoordErr.formatErr (CoordErr.floatErr "abc")
    "" 0 0).2.2.1 (by decide) ?_ (by decide)
  have hp : pyFloatParts (trimChars (pyStrip (String.mk "91".toList)).toList) =
      some ((91 : ℤ), (0 : ℕ), (0 : ℤ)) := by decide
  simp only [pyFloatE, hp]

/-- C6: `geocode` rejects an empty or whitespace-only place name, and
a well-formed place name longer than 200 characters, whatever the
fetch step would return — so these are caller errors raised before,
and independently of, any network request; an empty upstream result is
the not-found outcome `none`, not an error; a first upstream entry
missing one of the lat, lon or display_name keys is the
malformed-response error, whose message differs from both caller-error
messages. -/
theorem geocode_contract (place : String) (fetch : String → List NomItem)
    (item : NomItem) (rest : List NomItem) :
    (pyStrip place = "" → geocode fetch place = Except.error "Place name cannot be empty") ∧
    (pyStrip place ≠ "" → MAX_PLACE_LENGTH < place.length →
      geocode fetch place = Except.error "Place name too long (max 200 characters)") ∧
    (pyStrip place ≠ "" → place.length ≤ MAX_PLACE_LENGTH → fetch (pyStrip place) = [] →
      geocode fetch place = Except.ok Option.none) ∧
    (pyStrip place ≠ "" → place.length ≤ MAX_PLACE_LENGTH →
      fetch (pyStrip place) = item :: rest →
      (item.lat = Option.none ∨ item.lon = Option.none ∨ item.display_name = Option.none) →
      geocode fetch place = Except.error "Unexpected response format from geocoding service") ∧
    ("Unexpected response format from geocoding service" ≠ "Place name cannot be empty" ∧
      "Unexpected response format from geocoding service" ≠
        "Place name too long (max 200 characters)") := by
  obtain ⟨x1, x2, x3⟩ := item
  refine ⟨?_, ?_, ?_, ?_, by decide⟩
  · intro hs
    unfold geocode
    rw [if_pos (Or.inr hs)]
  · intro hs hlen
    unfold geocode
    rw [if_neg ?hc1, if_pos hlen]
    case hc1 =>
      rintro (rfl | hh)
      · exact hs rfl
      · exact hs hh
  · intro hs hlen hfetch
    unfold geocode
    rw [if_neg ?hc2, if_neg (Nat.not_lt.mpr hlen), hfetch]
    case hc2 =>
      rintro (rfl | hh)
      · exact hs rfl
      · exact hs hh
  · intro hs hlen hfetch hmiss
    unfold geocode
    rw [if_neg ?hc3, if_neg (Nat.not_lt.mpr hlen), hfetch]
    case hc3 =>
      rintro (rfl | hh)
      · exact hs rfl
      · exact hs hh
    rcases hmiss with h | h | h <;> subst h
    · rfl
    · cases x1 <;> rfl
    · cases x1 <;> cases x2 <;> rfl

set_option maxRecDepth 8192 in
theorem geocode_contract_witness :
    geocode (fun _ => []) "   " = Except.error "Place name cannot be empty" ∧
    geocode (fun _ => []) longPlace =
      Except.error "Place name too long (max 200 characters)" ∧
    geocode (fun _ => []) "Paris" = Except.ok Option.none ∧
    geocode (fun _ => [noNameItem]) "Paris" =
      Except.error "Unexpected response format from geocoding service" :=
  ⟨(geocode_contract "   " (fun _ => []) noNameItem []).1 (by decide),
   (geocode_contract longPlace (fun _ => []) noNameItem []).2.1 (by decide) (by decide),
   (geocode_contract "Paris" (fun _ => []) noNameItem []).2.2.1 (by decide) (by decide) rfl,
   (geocode_contract "Paris" (fun _ => [noNameItem]) noNameItem []).2.2.2.1 (by decide)
     (by decide) rfl (Or.inr (Or.inr rfl))⟩

end Ifo
